import Mathlib

/-!
Verification of the resilient-orchestration layer of the OLVM Packer builder.

The Go sources are shallowly embedded: pure string classification becomes a
Lean function on an explicit error value; remote calls become environment
fields (one entry per call site, indexed by call number where a call is made
repeatedly); loops with early `return`/`break` become structural recursions
that also report how many remote calls and sleeps were performed, so that
the retry/attempt budgets can be stated exactly.
-/

set_option maxRecDepth 4000
set_option linter.unreachableTactic false
set_option linter.unusedTactic false
set_option linter.unnecessarySeqFocus false

/-- Characters of `pat` occur at the start of `s`
(Go `strings.HasPrefix`, on char lists). -/
def charsStartWith : List Char → List Char → Bool
  | _, [] => true
  | [], _ :: _ => false
  | c :: s, p :: ps => c == p && charsStartWith s ps

/-- `pat` occurs contiguously somewhere in `s` (Go `strings.Contains`,
on char lists). -/
def charsContain (pat : List Char) : List Char → Bool
  | [] => charsStartWith [] pat
  | c :: s => charsStartWith (c :: s) pat || charsContain pat s

/-- Go `strings.Contains(s, sub)`. -/
def goContains (s sub : String) : Bool :=
  charsContain sub.data s.data

/-- Go `strings.ToLower` (ASCII case mapping, which is all the
classifier's substring lists exercise). -/
def goToLower (s : String) : String :=
  ⟨s.data.map Char.toLower⟩

/-- A Go `error` value as the classifier observes it: whether the dynamic
type is `*ovirtsdk4.AuthError`, and the message `err.Error()`. -/
structure GoError where
  isAuthErr : Bool
  msg : String
deriving DecidableEq

/-- `networkErrors` list of `isRetryableError`
(src/builder/olvm/connection_wrapper.go). -/
def networkErrors : List String :=
  ["connection refused", "connection reset", "network is unreachable",
   "no route to host", "timeout", "deadline exceeded",
   "context deadline exceeded", "connection lost", "broken pipe",
   "connection reset by peer"]

/-- `xmlErrors` list of `isRetryableError`. -/
def xmlErrors : List String :=
  ["tag not matched", "expect <fault> but got <html>",
   "expect <fault> but got", "unexpected token", "xml parsing error",
   "invalid xml", "parse error", "malformed xml", "unexpected element",
   "unexpected end element"]

/-- `authErrors` list of `isRetryableError`. -/
def authErrors : List String :=
  ["unauthorized", "forbidden", "authentication failed", "session expired",
   "login required", "token expired", "invalid token", "access denied"]

/-- `isRetryableError` (src/builder/olvm/connection_wrapper.go, lines
160-241).  The sequence of early `return true` sites becomes a `||` chain
in source order.  Note that the three substring loops lower-case the
message first, while the four trailing server-error checks
(`HTTP 5`, `temporary`, `temporarily`, `HTTP 429`) compare the raw
message case-sensitively. -/
def isRetryableError (e : GoError) : Bool :=
  e.isAuthErr
  || networkErrors.any (fun p => goContains (goToLower e.msg) p)
  || xmlErrors.any (fun p => goContains (goToLower e.msg) p)
  || authErrors.any (fun p => goContains (goToLower e.msg) p)
  || goContains e.msg "HTTP 5"
  || (goContains e.msg "temporary" || goContains e.msg "temporarily")
  || goContains e.msg "HTTP 429"

/-- The full substring list of spec §4.1 (network, malformed-response,
auth/session, and server-error markers). -/
def specRetrySubstrings : List String :=
  networkErrors ++ xmlErrors ++ authErrors
    ++ ["HTTP 5", "temporary", "temporarily", "HTTP 429"]

/-- The retryable classifier exactly as claim C1 words it: auth error
type, or the message case-insensitively contains one of the listed
substrings (every list treated case-insensitively). -/
def claimC1Retryable (e : GoError) : Bool :=
  e.isAuthErr
    || specRetrySubstrings.any
        (fun p => goContains (goToLower e.msg) (goToLower p))

example : goContains "abc timeout xyz" "timeout" = true := by decide
example : isRetryableError ⟨false, "TIMEOUT"⟩ = true := by decide
example : isRetryableError ⟨false, "http 500"⟩ = false := by decide
example : claimC1Retryable ⟨false, "http 500"⟩ = true := by decide

/-- C1 counterexample: the message `"http 500"` case-insensitively contains
the server-error marker `HTTP 5`, so the claim's case-insensitive
classifier calls it retryable, but `isRetryableError` compares the four
server-error markers case-sensitively and returns `false`. -/
theorem isRetryableError_c1_counterexample :
    isRetryableError ⟨false, "http 500"⟩ = false
      ∧ claimC1Retryable ⟨false, "http 500"⟩ = true := by
  decide

/-- The classifier worded as the amended claim C1: auth/session error
type, or case-insensitive containment of one of the network /
malformed-response / auth-session substrings, or CASE-SENSITIVE
containment of one of the server-error markers. -/
def amendedC1Retryable (e : GoError) : Bool :=
  e.isAuthErr
    || (networkErrors ++ xmlErrors ++ authErrors).any
        (fun p => goContains (goToLower e.msg) (goToLower p))
    || (["HTTP 5", "temporary", "temporarily", "HTTP 429"] :
          List String).any (fun p => goContains e.msg p)

/-- C1 (amended): an error is retryable iff it is the
authentication/session error type, or its message case-insensitively
contains one of the network / malformed-response / auth-session
substrings, or its message CASE-SENSITIVELY contains one of the
server-error markers `HTTP 5`, `temporary`, `temporarily`, `HTTP 429`;
every other message is not retryable. -/
theorem isRetryableError_c1_amended (e : GoError) :
    isRetryableError e = amendedC1Retryable e := by
  have hmap : (networkErrors ++ xmlErrors ++ authErrors).map goToLower
      = networkErrors ++ xmlErrors ++ authErrors := by decide
  unfold amendedC1Retryable
  rw [show (fun p => goContains (goToLower e.msg) (goToLower p))
      = ((fun q => goContains (goToLower e.msg) q) ∘ goToLower) from rfl]
  rw [← List.any_map, hmap]
  simp [isRetryableError, List.any_append, Bool.or_assoc]

/-- Environment of one `ExecuteWithReconnect` call: the outcome of the
initial `connection.Test()` probe, of each `reconnect()` call (indexed by
reconnect-call number, `none` = success), and of each `operation` call
(indexed by operation-call number, `none` = success). -/
structure RetryEnv where
  probe : Option GoError
  recs : Nat → Option GoError
  ops : Nat → Option GoError

/-- Which `return` site of `ExecuteWithReconnect` fired
(src/builder/olvm/connection_wrapper.go, lines 97-157). -/
inductive ExecResult
  | success
  /-- `GetConnection` returned an error (non-retryable probe failure, or
  the probe-triggered reconnect failed). -/
  | connError (e : GoError)
  /-- the first `operation` call failed non-retryably: returned as-is. -/
  | immediateError (e : GoError)
  /-- `Failed to reconnect after %d attempts`. -/
  | reconnectExhausted (e : GoError)
  /-- `Operation failed after %d reconnection attempts: %s`. -/
  | opExhausted (e : GoError)
  /-- `Operation failed after reconnection` (non-retryable re-run). -/
  | opNonRetryable (e : GoError)
  /-- the `for` loop fell through (only when `MaxRetries = 0`). -/
  | loopFellThrough
deriving DecidableEq

/-- Result of `ExecuteWithReconnect` plus the number of `reconnect()`
calls, `operation` calls and `time.Sleep` calls it performed. -/
structure ExecTrace where
  result : ExecResult
  recCalls : Nat
  opCalls : Nat
  sleeps : Nat
deriving DecidableEq

/-- The `for attempt := 1; attempt <= MaxRetries` loop of
`ExecuteWithReconnect`.  `n` is the number of attempts still allowed
(`MaxRetries - attempt + 1`), `r`/`o`/`s` the reconnect-call,
operation-call and sleep counts accumulated so far (the call indices into
the environment coincide with the counts). -/
def retryLoop (env : RetryEnv) : Nat → Nat → Nat → Nat → ExecTrace
  | 0, r, o, s => ⟨.loopFellThrough, r, o, s⟩
  | n + 1, r, o, s =>
    match env.recs r with
    | some e =>
      if n = 0 then ⟨.reconnectExhausted e, r + 1, o, s⟩
      else retryLoop env n (r + 1) o (s + 1)
    | none =>
      match env.ops o with
      | none => ⟨.success, r + 1, o + 1, s⟩
      | some e =>
        if isRetryableError e then
          if n = 0 then ⟨.opExhausted e, r + 1, o + 1, s⟩
          else retryLoop env n (r + 1) (o + 1) (s + 1)
        else ⟨.opNonRetryable e, r + 1, o + 1, s⟩

/-- The body of `ExecuteWithReconnect` after `GetConnection` succeeded,
having already made `r0` reconnect calls: run `operation` once; enter the
retry loop only on a retryable failure. -/
def runInitialOp (env : RetryEnv) (maxRetries r0 : Nat) : ExecTrace :=
  match env.ops 0 with
  | none => ⟨.success, r0, 1, 0⟩
  | some e =>
    if isRetryableError e then retryLoop env maxRetries r0 1 0
    else ⟨.immediateError e, r0, 1, 0⟩

/-- `ExecuteWithReconnect` (src/builder/olvm/connection_wrapper.go,
lines 97-157), including the `GetConnection` probe-and-reconnect step
(lines 42-54). -/
def executeWithReconnect (env : RetryEnv) (maxRetries : Nat) : ExecTrace :=
  match env.probe with
  | none => runInitialOp env maxRetries 0
  | some e =>
    if isRetryableError e then
      match env.recs 0 with
      | none => runInitialOp env maxRetries 1
      | some e2 => ⟨.connError e2, 1, 0, 0⟩
    else ⟨.connError e, 0, 0, 0⟩

/-- A concrete retryable error (`timeout` is in the network list). -/
def timeoutErr : GoError := ⟨false, "timeout"⟩

/-- Environment whose probe fails retryably, whose reconnects all succeed
and whose operation always fails retryably. -/
def c2Env : RetryEnv :=
  ⟨some timeoutErr, fun _ => none, fun _ => some timeoutErr⟩

example : executeWithReconnect c2Env 1
    = ⟨.opExhausted timeoutErr, 2, 2, 0⟩ := by rfl

/-- Each loop attempt makes exactly one reconnect call, so the loop adds
at most `n` reconnect calls. -/
lemma retryLoop_recCalls_le (env : RetryEnv) :
    ∀ n r o s, (retryLoop env n r o s).recCalls ≤ r + n := by
  intro n
  induction n with
  | zero => intro r o s; simp [retryLoop]
  | succ m ih =>
    intro r o s
    rw [retryLoop]
    rcases hrec : env.recs r with _ | e
    · rcases hop : env.ops o with _ | e
      · simp <;> omega
      · by_cases hr : isRetryableError e = true
        · by_cases hm : m = 0
          · simp [hr, hm] <;> omega
          · simp only [hr, if_true, hm, if_false]
            have := ih (r + 1) (o + 1) (s + 1)
            omega
        · simp only [Bool.not_eq_true] at hr
          simp [hr] <;> omega
    · by_cases hm : m = 0
      · simp [hm] <;> omega
      · simp only [hm, if_false]
        have := ih (r + 1) o (s + 1)
        omega

/-- An operation re-run happens only inside an attempt that already made
its reconnect call: the loop never has more operation calls than
reconnect calls (shared budget, not separate counters). -/
lemma retryLoop_opCalls_shared (env : RetryEnv) :
    ∀ n r o s, (retryLoop env n r o s).opCalls + r
      ≤ (retryLoop env n r o s).recCalls + o := by
  intro n
  induction n with
  | zero => intro r o s; simp [retryLoop] <;> omega
  | succ m ih =>
    intro r o s
    rw [retryLoop]
    rcases hrec : env.recs r with _ | e
    · rcases hop : env.ops o with _ | e
      · simp <;> omega
      · by_cases hr : isRetryableError e = true
        · by_cases hm : m = 0
          · simp [hr, hm] <;> omega
          · simp only [hr, if_true, hm, if_false]
            have := ih (r + 1) (o + 1) (s + 1)
            omega
        · simp only [Bool.not_eq_true] at hr
          simp [hr] <;> omega
    · by_cases hm : m = 0
      · simp [hm] <;> omega
      · simp only [hm, if_false]
        have := ih (r + 1) o (s + 1)
        omega

/-- If every reconnect attempt fails, the loop consumes its whole attempt
budget, sleeping between attempts, and ends at the
reconnect-exhausted return. -/
lemma retryLoop_exhaust (env : RetryEnv) (hall : ∀ k, env.recs k ≠ none) :
    ∀ n r o s, 1 ≤ n → ∃ e, retryLoop env n r o s
      = ⟨.reconnectExhausted e, r + n, o, s + (n - 1)⟩ := by
  intro n
  induction n with
  | zero => intro r o s h; omega
  | succ m ih =>
    intro r o s _
    rcases hrec : env.recs r with _ | e
    · exact absurd hrec (hall r)
    · by_cases hm : m = 0
      · refine ⟨e, ?_⟩
        rw [retryLoop, hrec]
        simp [hm]
      · obtain ⟨e2, he2⟩ := ih (r + 1) o (s + 1) (by omega)
        refine ⟨e2, ?_⟩
        rw [retryLoop, hrec]
        simp only [hm, if_false]
        rw [he2]
        congr 1 <;> omega

/-- `runInitialOp` adds at most `maxRetries` reconnect calls to the `r0`
made by `GetConnection`. -/
lemma runInitialOp_recCalls_le (env : RetryEnv) (maxRetries r0 : Nat) :
    (runInitialOp env maxRetries r0).recCalls ≤ r0 + maxRetries := by
  rw [runInitialOp]
  rcases hop : env.ops 0 with _ | e
  · simp <;> omega
  · by_cases hr : isRetryableError e = true
    · simp only [hr, if_true]
      exact retryLoop_recCalls_le env maxRetries r0 1 0
    · simp only [Bool.not_eq_true] at hr
      simp [hr] <;> omega

/-- `runInitialOp` never has more operation calls than one plus the
reconnect calls made past `r0`. -/
lemma runInitialOp_opCalls_shared (env : RetryEnv) (maxRetries r0 : Nat) :
    (runInitialOp env maxRetries r0).opCalls + r0
      ≤ (runInitialOp env maxRetries r0).recCalls + 1 := by
  rw [runInitialOp]
  rcases hop : env.ops 0 with _ | e
  · simp <;> omega
  · by_cases hr : isRetryableError e = true
    · simp only [hr, if_true]
      have := retryLoop_opCalls_shared env maxRetries r0 1 0
      omega
    · simp only [Bool.not_eq_true] at hr
      simp [hr] <;> omega

/-- C2 counterexample: with `MaxRetries = 1`, a retryably-failing liveness
probe (one reconnect inside `GetConnection`) followed by a retryably
failing operation (one reconnect inside the loop) makes 2 reconnect
calls, exceeding `MaxRetries`. -/
theorem executeWithReconnect_c2_counterexample :
    (executeWithReconnect c2Env 1).recCalls = 2
      ∧ executeWithReconnect c2Env 1
        = ⟨.opExhausted timeoutErr, 2, 2, 0⟩ := by
  exact ⟨rfl, rfl⟩

/-- C2 (amended): `ExecuteWithReconnect`
(1) performs zero reconnects and returns success when the probe and the
operation both succeed;
(2) returns a non-retryable first operation error immediately with no
reconnect (probe succeeded);
(3) never makes more than `MaxRetries + 1` reconnect calls in total;
(4) and never more than `MaxRetries` when the probe succeeded — the
retry loop itself never exceeds `MaxRetries` reconnect attempts, the
`+1` coming only from the probe-triggered reconnect in `GetConnection`;
(5) reconnect failures and retryable re-run failures share one attempt
budget: there is never more than one operation call per reconnect call
(plus the initial run);
(6) a successful re-run returns immediately;
(7) a non-retryable re-run failure returns immediately;
(8) if every reconnect fails, the budget is exhausted and a terminal
reconnect-exhausted error is returned after exactly `MaxRetries`
reconnect attempts. -/
theorem executeWithReconnect_c2_amended (env : RetryEnv) (maxRetries : Nat) :
    (env.probe = none → env.ops 0 = none →
      executeWithReconnect env maxRetries = ⟨.success, 0, 1, 0⟩)
    ∧ (∀ e, env.probe = none → env.ops 0 = some e →
        isRetryableError e = false →
        executeWithReconnect env maxRetries = ⟨.immediateError e, 0, 1, 0⟩)
    ∧ ((executeWithReconnect env maxRetries).recCalls ≤ maxRetries + 1)
    ∧ (env.probe = none →
        (executeWithReconnect env maxRetries).recCalls ≤ maxRetries)
    ∧ ((executeWithReconnect env maxRetries).opCalls
        ≤ (executeWithReconnect env maxRetries).recCalls + 1)
    ∧ (∀ e, env.probe = none → env.ops 0 = some e →
        isRetryableError e = true → env.recs 0 = none → env.ops 1 = none →
        1 ≤ maxRetries →
        executeWithReconnect env maxRetries = ⟨.success, 1, 2, 0⟩)
    ∧ (∀ e e2, env.probe = none → env.ops 0 = some e →
        isRetryableError e = true → env.recs 0 = none →
        env.ops 1 = some e2 → isRetryableError e2 = false →
        1 ≤ maxRetries →
        executeWithReconnect env maxRetries
          = ⟨.opNonRetryable e2, 1, 2, 0⟩)
    ∧ (∀ e, env.probe = none → env.ops 0 = some e →
        isRetryableError e = true → (∀ k, env.recs k ≠ none) →
        1 ≤ maxRetries →
        ∃ e2, executeWithReconnect env maxRetries
          = ⟨.reconnectExhausted e2, maxRetries, 1, maxRetries - 1⟩) := by
  refine ⟨?_, ?_, ?_, ?_, ?_, ?_, ?_, ?_⟩
  · intro hp hop
    simp [executeWithReconnect, hp, runInitialOp, hop]
  · intro e hp hop hr
    simp [executeWithReconnect, hp, runInitialOp, hop, hr]
  · rcases hp : env.probe with _ | e
    · have := runInitialOp_recCalls_le env maxRetries 0
      simp only [executeWithReconnect, hp]
      omega
    · by_cases hr : isRetryableError e = true
      · rcases hrec : env.recs 0 with _ | e2
        · have := runInitialOp_recCalls_le env maxRetries 1
          simp only [executeWithReconnect, hp, hr, if_true, hrec]
          omega
        · simp only [executeWithReconnect, hp, hr, if_true, hrec]
          omega
      · simp only [Bool.not_eq_true] at hr
        simp [executeWithReconnect, hp, hr]
  · intro hp
    have := runInitialOp_recCalls_le env maxRetries 0
    simp only [executeWithReconnect, hp]
    omega
  · rcases hp : env.probe with _ | e
    · have := runInitialOp_opCalls_shared env maxRetries 0
      simp only [executeWithReconnect, hp]
      omega
    · by_cases hr : isRetryableError e = true
      · rcases hrec : env.recs 0 with _ | e2
        · have := runInitialOp_opCalls_shared env maxRetries 1
          simp only [executeWithReconnect, hp, hr, if_true, hrec]
          omega
        · simp only [executeWithReconnect, hp, hr, if_true, hrec]
          omega
      · simp only [Bool.not_eq_true] at hr
        simp [executeWithReconnect, hp, hr]
  · intro e hp hop hr hrec hop1 hmax
    rcases maxRetries with _ | m
    · omega
    rw [executeWithReconnect, hp, runInitialOp, hop]
    simp only [hr, if_true]
    rw [retryLoop, hrec, hop1]
  · intro e e2 hp hop hr hrec hop1 hr2 hmax
    rcases maxRetries with _ | m
    · omega
    rw [executeWithReconnect, hp, runInitialOp, hop]
    simp only [hr, if_true]
    rw [retryLoop, hrec, hop1]
    simp [hr2]
  · intro e hp hop hr hall hmax
    rw [executeWithReconnect, hp, runInitialOp, hop]
    simp only [hr, if_true]
    obtain ⟨e2, he2⟩ := retryLoop_exhaust env hall maxRetries 0 1 0 hmax
    refine ⟨e2, ?_⟩
    rw [he2]
    congr 1 <;> omega

/-- Witness for `executeWithReconnect_c2_amended` at a concrete
environment: probe succeeds, the operation always fails with a
non-retryable error, `MaxRetries = 3`. -/
theorem executeWithReconnect_c2_amended_witness :
    executeWithReconnect ⟨none, fun _ => none, fun _ => some ⟨false, "boom"⟩⟩ 3
      = ⟨.immediateError ⟨false, "boom"⟩, 0, 1, 0⟩ :=
  (executeWithReconnect_c2_amended
      ⟨none, fun _ => none, fun _ => some ⟨false, "boom"⟩⟩ 3).2.1
    ⟨false, "boom"⟩ rfl rfl (by decide)

/-- One result of the refresh closure handed to the state poller: a
snapshot with a status string, or an error. -/
inductive RefreshOutcome (σ : Type) where
  | ok (snapshot : σ) (status : String)
  | err (e : GoError)
deriving DecidableEq

/-- How a poll ended. -/
inductive WaitOutcome (σ : Type) where
  | success (snapshot : σ)
  | refreshError (e : GoError)
  /-- the "unexpected state" abort, naming the status. -/
  | unexpectedState (status : String)
deriving DecidableEq

/-- Result of a poll on a finite refresh stub, with the number of refresh
calls and of fixed-interval sleeps made.  `result = none` means the stub
was exhausted while the poll would still be looping. -/
structure WaitTrace (σ : Type) where
  result : Option (WaitOutcome σ)
  refreshCalls : Nat
  sleeps : Nat
deriving DecidableEq

/-- Modelled from the spec: the generic `WaitForState` poller of
`StateChangeConf` (its Go source file is not in the repository; only its
call sites are).  Per spec §4.2: invoke `refresh`; a refresh error aborts
immediately with that error; a status in the target set returns success
with the snapshot; a status in the pending set sleeps a fixed interval
and loops; any other status aborts immediately with an "unexpected
state" error naming the status.  The refresh closure is modelled as the
finite stub list of its successive results. -/
def waitForState {σ : Type} (pending target : List String) :
    List (RefreshOutcome σ) → WaitTrace σ
  | [] => ⟨none, 0, 0⟩
  | .err e :: _ => ⟨some (.refreshError e), 1, 0⟩
  | .ok snap status :: rest =>
    if target.contains status then ⟨some (.success snap), 1, 0⟩
    else if pending.contains status then
      let t := waitForState pending target rest
      ⟨t.result, t.refreshCalls + 1, t.sleeps + 1⟩
    else ⟨some (.unexpectedState status), 1, 0⟩

example : waitForState (σ := Unit) ["locked"] ["ok"]
    [.ok () "locked", .ok () "locked", .ok () "ok"]
    = ⟨some (.success ()), 3, 2⟩ := by decide

/-- C3: the state poller propagates a refresh error on the first erroring
call with no internal retry; returns success with the snapshot as soon
as a refresh yields a target status; aborts immediately with an
"unexpected state" error naming a status that is in neither set; and on
the stub sequence [pending, pending, target] succeeds after exactly 3
refresh calls and 2 fixed-interval sleeps. -/
theorem waitForState_c3 {σ : Type} (pending target : List String)
    (stub : List (RefreshOutcome σ)) (e : GoError) (a b c : σ)
    (s1 s2 s3 : String) :
    (waitForState pending target (.err e :: stub)
      = ⟨some (.refreshError e), 1, 0⟩)
    ∧ (s3 ∈ target →
        waitForState pending target (.ok c s3 :: stub)
          = ⟨some (.success c), 1, 0⟩)
    ∧ (s1 ∉ target → s1 ∉ pending →
        waitForState pending target (.ok a s1 :: stub)
          = ⟨some (.unexpectedState s1), 1, 0⟩)
    ∧ (s1 ∈ pending → s1 ∉ target → s2 ∈ pending → s2 ∉ target →
        s3 ∈ target →
        waitForState pending target [.ok a s1, .ok b s2, .ok c s3]
          = ⟨some (.success c), 3, 2⟩) := by
  refine ⟨rfl, ?_, ?_, ?_⟩
  · intro h3
    simp [waitForState, h3]
  · intro h1 h2
    simp [waitForState, h1, h2]
  · intro hp1 ht1 hp2 ht2 ht3
    simp [waitForState, hp1, ht1, hp2, ht2, ht3]

/-- Witness for `waitForState_c3`: pending `["locked"]`, target `["ok"]`,
the three-element stub of the claim. -/
theorem waitForState_c3_witness :
    waitForState (σ := Unit) ["locked"] ["ok"]
      [.ok () "locked", .ok () "locked", .ok () "ok"]
      = ⟨some (.success ()), 3, 2⟩ :=
  (waitForState_c3 ["locked"] ["ok"] [] ⟨false, ""⟩ () () ()
      "locked" "locked" "ok").2.2.2
    (by simp) (by simp) (by simp) (by simp) (by simp)

/-- A disk as the clone-polling loop observes it: its id and status. -/
structure DiskM where
  id : String
  status : String
deriving DecidableEq

/-- How the 30-iteration disk-listing loop of `cloneDisk` exited. -/
inductive CloneLoopExit
  /-- a disk-list call failed: `Error listing disks`. -/
  | onErr (e : GoError)
  /-- `break` with `clonedDiskID` set from the first listed disk. -/
  | found (id : String)
  /-- the loop ran all its iterations without a `break`. -/
  | exhausted
deriving DecidableEq

/-- The `for i := 0; i < 30; i++` loop of `cloneDisk`
(src/builder/olvm/step_create_vm.go, lines 529-549).  `lists i` is the
result of the disk list-by-name call of iteration `i`; `fuel` is the
number of iterations left and `s` the sleeps made so far (the loop
sleeps 10s at the end of every iteration that does not `break` or
return). -/
def cloneDiskAux (lists : Nat → Except GoError (List DiskM)) :
    Nat → Nat → Nat → CloneLoopExit × Nat
  | 0, _, s => (.exhausted, s)
  | fuel + 1, i, s =>
    match lists i with
    | .error e => (.onErr e, s)
    | .ok disks =>
      match disks with
      | [] => cloneDiskAux lists fuel (i + 1) (s + 1)
      | d :: _ =>
        if d.status = "ok" then (.found d.id, s)
        else cloneDiskAux lists fuel (i + 1) (s + 1)

/-- Final result of the disk-clone wait. -/
inductive CloneResult
  | ok (id : String)
  | listError (e : GoError)
  /-- `Timed out waiting for cloned disk to become available`. -/
  | timeout
deriving DecidableEq

/-- The polling part of `cloneDisk`: run the 30-iteration loop, then the
`if clonedDiskID == ""` timeout check, paired with the number of
10-second sleeps performed. -/
def cloneDiskPoll (lists : Nat → Except GoError (List DiskM)) :
    CloneResult × Nat :=
  match cloneDiskAux lists 30 0 0 with
  | (.onErr e, s) => (.listError e, s)
  | (.found id, s) => (if id = "" then .timeout else .ok id, s)
  | (.exhausted, s) => (.timeout, s)

/-- An iteration neither breaks nor returns: the list call succeeded and
yielded no first disk with status `ok`. -/
def iterNoBreak : Except GoError (List DiskM) → Bool
  | .error _ => false
  | .ok [] => true
  | .ok (d :: _) => !(d.status == "ok")

/-- An iteration observes the named clone with status `ok` (the claim's
wording): the list call succeeded and its first disk has status `ok`. -/
def iterObservesOk : Except GoError (List DiskM) → Bool
  | .ok (d :: _) => d.status == "ok"
  | _ => false

/-- The second half of claim C4, stated literally: if no iteration within
the 30-attempt bound observes the named disk with status `ok`, the wait
returns the terminal timeout error. -/
def c4TimeoutAsClaimed (lists : Nat → Except GoError (List DiskM)) : Prop :=
  (∀ i, i < 30 → iterObservesOk (lists i) = false) →
    (cloneDiskPoll lists).1 = .timeout

/-- C4 counterexample: when a disk-list call fails, the loop returns that
listing error — not the timeout error — although no iteration observed
an `ok` disk, so the claim's timeout property fails at this stub. -/
theorem cloneDiskPoll_c4_counterexample :
    (cloneDiskPoll (fun _ => .error ⟨false, "boom"⟩)).1
      = .listError ⟨false, "boom"⟩
    ∧ ¬ c4TimeoutAsClaimed (fun _ => .error ⟨false, "boom"⟩) :=
  ⟨rfl, fun h => absurd (h (by intro i _; rfl)) (by decide)⟩

/-- If every iteration in `[i, i + fuel)` neither breaks nor returns, the
loop exhausts its fuel, sleeping once per iteration. -/
lemma cloneDiskAux_exhaust (lists : Nat → Except GoError (List DiskM)) :
    ∀ fuel i s, (∀ j, i ≤ j → j < i + fuel → iterNoBreak (lists j) = true) →
      cloneDiskAux lists fuel i s = (.exhausted, s + fuel) := by
  intro fuel
  induction fuel with
  | zero => intro i s _; simp [cloneDiskAux]
  | succ f ih =>
    intro i s h
    have hi := h i (by omega) (by omega)
    rw [cloneDiskAux]
    rcases hl : lists i with e | disks
    · rw [hl] at hi; simp [iterNoBreak] at hi
    · rw [hl] at hi
      rcases disks with _ | ⟨d, rest⟩
      · rw [show s + (f + 1) = (s + 1) + f by omega]
        exact ih (i + 1) (s + 1) (fun j h1 h2 => h j (by omega) (by omega))
      · simp only [iterNoBreak, Bool.not_eq_true', beq_eq_false_iff_ne] at hi
        simp only [hi, if_false]
        rw [show s + (f + 1) = (s + 1) + f by omega]
        exact ih (i + 1) (s + 1) (fun j h1 h2 => h j (by omega) (by omega))

/-- If the iterations before `i + k` neither break nor return and
iteration `i + k` lists a first disk with status `ok`, the loop breaks
there with that disk's id, having slept `k` times. -/
lemma cloneDiskAux_found (lists : Nat → Except GoError (List DiskM)) :
    ∀ k fuel i s d ds, k < fuel →
      (∀ j, i ≤ j → j < i + k → iterNoBreak (lists j) = true) →
      lists (i + k) = .ok (d :: ds) → d.status = "ok" →
      cloneDiskAux lists fuel i s = (.found d.id, s + k) := by
  intro k
  induction k with
  | zero =>
    intro fuel i s d ds hk _ hl hst
    rcases fuel with _ | f
    · omega
    rw [cloneDiskAux]
    rw [show i + 0 = i from rfl] at hl
    rw [hl]
    simp [hst]
  | succ m ih =>
    intro fuel i s d ds hk h hl hst
    rcases fuel with _ | f
    · omega
    have hi := h i (by omega) (by omega)
    rw [cloneDiskAux]
    rcases hl0 : lists i with e | disks
    · rw [hl0] at hi; simp [iterNoBreak] at hi
    · rw [hl0] at hi
      rcases disks with _ | ⟨d0, rest⟩
      · rw [show s + (m + 1) = (s + 1) + m by omega]
        refine ih f (i + 1) (s + 1) d ds (by omega)
          (fun j h1 h2 => h j (by omega) (by omega)) ?_ hst
        rw [show i + 1 + m = i + (m + 1) by omega]
        exact hl
      · simp only [iterNoBreak, Bool.not_eq_true', beq_eq_false_iff_ne] at hi
        simp only [hi, if_false]
        rw [show s + (m + 1) = (s + 1) + m by omega]
        refine ih f (i + 1) (s + 1) d ds (by omega)
          (fun j h1 h2 => h j (by omega) (by omega)) ?_ hst
        rw [show i + 1 + m = i + (m + 1) by omega]
        exact hl

/-- The loop only consults list results of iterations `[i, i + fuel)`. -/
lemma cloneDiskAux_frame (lists lists2 : Nat → Except GoError (List DiskM)) :
    ∀ fuel i s, (∀ j, i ≤ j → j < i + fuel → lists j = lists2 j) →
      cloneDiskAux lists fuel i s = cloneDiskAux lists2 fuel i s := by
  intro fuel
  induction fuel with
  | zero => intro i s _; rfl
  | succ f ih =>
    intro i s h
    have hi := h i (by omega) (by omega)
    rw [cloneDiskAux, cloneDiskAux, ← hi]
    rcases hl : lists i with e | disks
    · rfl
    · rcases disks with _ | ⟨d, rest⟩
      · exact ih (i + 1) (s + 1) (fun j h1 h2 => h j (by omega) (by omega))
      · by_cases hst : d.status = "ok"
        · simp [hst]
        · simp only [hst, if_false]
          exact ih (i + 1) (s + 1) (fun j h1 h2 => h j (by omega) (by omega))

/-- C4 (amended): the disk-clone wait is a bounded loop of at most 30
iterations with one 10-second sleep per non-breaking iteration, reading
only the first 30 list results; if the iterations before some `k < 30`
neither error nor observe an `ok`-status first disk and iteration `k`
observes the named disk with status `ok` and a non-empty id, it returns
that disk's id (after `k` sleeps); if all 30 iterations pass without a
listing error or an `ok` status, it returns the terminal timeout error
(after 30 sleeps).  (A listing failure propagates that error instead of
the timeout, and a disk observed with status `ok` but an empty id falls
through to the timeout error.) -/
theorem cloneDiskPoll_c4_amended (lists : Nat → Except GoError (List DiskM)) :
    ((∀ i, i < 30 → iterNoBreak (lists i) = true) →
      cloneDiskPoll lists = (.timeout, 30))
    ∧ (∀ k d ds, k < 30 → (∀ i, i < k → iterNoBreak (lists i) = true) →
        lists k = .ok (d :: ds) → d.status = "ok" → d.id ≠ "" →
        cloneDiskPoll lists = (.ok d.id, k))
    ∧ (∀ lists2, (∀ i, i < 30 → lists i = lists2 i) →
        cloneDiskPoll lists = cloneDiskPoll lists2) := by
  refine ⟨?_, ?_, ?_⟩
  · intro h
    rw [cloneDiskPoll,
      cloneDiskAux_exhaust lists 30 0 0 (fun j h1 h2 => h j (by omega))]
  · intro k d ds hk h hl hst hid
    have hl0 : lists (0 + k) = .ok (d :: ds) := by
      rw [Nat.zero_add]; exact hl
    rw [cloneDiskPoll,
      cloneDiskAux_found lists k 30 0 0 d ds hk
        (fun j h1 h2 => h j (by omega)) hl0 hst]
    simp [hid]
  · intro lists2 h
    rw [cloneDiskPoll, cloneDiskPoll,
      cloneDiskAux_frame lists lists2 30 0 0 (fun j h1 h2 => h j (by omega))]

/-- Witness for `cloneDiskPoll_c4_amended`: the stub lists the clone as
`locked` on iterations 0 and 1 and as `ok` on iteration 2, so the wait
returns its id after 3 list calls and 2 sleeps. -/
theorem cloneDiskPoll_c4_amended_witness :
    cloneDiskPoll
        (fun i => if i < 2 then .ok [⟨"d2", "locked"⟩] else .ok [⟨"d2", "ok"⟩])
      = (.ok "d2", 2) :=
  (cloneDiskPoll_c4_amended
      (fun i => if i < 2 then .ok [⟨"d2", "locked"⟩] else .ok [⟨"d2", "ok"⟩])).2.1
    2 ⟨"d2", "ok"⟩ [] (by omega) (by decide) rfl rfl (by decide)

/-- Remote-call outcomes consumed by `stepCreateVM.Cleanup`: the VM Get
(returning the VM's status string), the Stop call, and the
wait-for-down poll. -/
structure CleanupEnv where
  getStatus : Except GoError String
  stopErr : Option GoError
  waitErr : Option GoError
  removeErr : Option GoError

/-- The externally visible actions of `stepCreateVM.Cleanup`, in order. -/
inductive CleanupAction
  | getVM
  | sayAlreadyStopped
  | stopVM
  | waitStop
  | removeVM
  /-- `Skipping VM cleanup due to cleanup_vm setting ...`. -/
  | sayKept
deriving DecidableEq

/-- The conditional-deletion tail of the cleanup: delete the VM only when
`config.CleanupVM != nil && *config.CleanupVM`, else report it kept. -/
def cleanupDeletePhase (cleanupVM : Option Bool) : List CleanupAction :=
  match cleanupVM with
  | some true => [.removeVM]
  | _ => [.sayKept]

/-- `stepCreateVM.Cleanup` (src/builder/olvm/step_create_vm.go, lines
813-889): no-op without a `vm_id` in state; otherwise get the VM status
(an error aborts), stop and wait only when the status is not already
`down` (errors abort), then conditionally delete. -/
def stepCreateVMCleanup (vmId : Option String) (cleanupVM : Option Bool)
    (env : CleanupEnv) : List CleanupAction :=
  match vmId with
  | none => []
  | some _ =>
    match env.getStatus with
    | .error _ => [.getVM]
    | .ok status =>
      if status = "down" then
        .getVM :: .sayAlreadyStopped :: cleanupDeletePhase cleanupVM
      else
        match env.stopErr with
        | some _ => [.getVM, .stopVM]
        | none =>
          match env.waitErr with
          | some _ => [.getVM, .stopVM, .waitStop]
          | none => .getVM :: .stopVM :: .waitStop ::
              cleanupDeletePhase cleanupVM

/-- When the cleanup-enabled setting is not literally `some true`, the
cleanup never performs the delete call. -/
lemma stepCreateVMCleanup_no_remove (vmId : Option String)
    (cleanupVM : Option Bool) (env : CleanupEnv)
    (hcv : cleanupDeletePhase cleanupVM = [.sayKept]) :
    CleanupAction.removeVM ∉ stepCreateVMCleanup vmId cleanupVM env := by
  rcases vmId with _ | v
  · simp [stepCreateVMCleanup]
  · rcases hg : env.getStatus with e | st
    · simp [stepCreateVMCleanup, hg]
    · by_cases hst : st = "down"
      · simp [stepCreateVMCleanup, hg, hst, hcv]
      · rcases hs : env.stopErr with _ | e2
        · rcases hw : env.waitErr with _ | e3
          · simp [stepCreateVMCleanup, hg, hst, hs, hw, hcv]
          · simp [stepCreateVMCleanup, hg, hst, hs, hw]
        · simp [stepCreateVMCleanup, hg, hst, hs]

/-- C5: the VM-creation step's Cleanup is a no-op when no VM id is in
state; when the VM is already fully stopped (`down`) it does not stop
it; otherwise it stops it and waits for it to stop; it then deletes the
VM iff the cleanup-enabled setting is `true` (a `nil` or `false` setting
keeps the VM and reports that); in every run the stop action appears
only when the observed status was not `down`, and the delete action only
when cleanup-enabled is `true`. -/
theorem stepCreateVMCleanup_c5 (vmId : Option String)
    (cleanupVM : Option Bool) (env : CleanupEnv) (v : String) :
    (stepCreateVMCleanup none cleanupVM env = [])
    ∧ (env.getStatus = .ok "down" →
        stepCreateVMCleanup (some v) cleanupVM env
          = .getVM :: .sayAlreadyStopped :: cleanupDeletePhase cleanupVM)
    ∧ (∀ st, env.getStatus = .ok st → st ≠ "down" →
        env.stopErr = none → env.waitErr = none →
        stepCreateVMCleanup (some v) cleanupVM env
          = .getVM :: .stopVM :: .waitStop :: cleanupDeletePhase cleanupVM)
    ∧ (cleanupVM = some true → cleanupDeletePhase cleanupVM = [.removeVM])
    ∧ (cleanupVM ≠ some true → cleanupDeletePhase cleanupVM = [.sayKept])
    ∧ (.stopVM ∈ stepCreateVMCleanup vmId cleanupVM env →
        ∃ st, env.getStatus = .ok st ∧ st ≠ "down")
    ∧ (.removeVM ∈ stepCreateVMCleanup vmId cleanupVM env →
        cleanupVM = some true) := by
  refine ⟨rfl, ?_, ?_, ?_, ?_, ?_, ?_⟩
  · intro h
    simp [stepCreateVMCleanup, h]
  · intro st h hne h1 h2
    simp [stepCreateVMCleanup, h, hne, h1, h2]
  · intro h; simp [cleanupDeletePhase, h]
  · intro h
    rcases cleanupVM with _ | b
    · rfl
    · rcases b
      · rfl
      · exact absurd rfl h
  · intro h
    rcases vmId with _ | v2
    · simp [stepCreateVMCleanup] at h
    · rcases hg : env.getStatus with e | st
      · simp [stepCreateVMCleanup, hg] at h
      · by_cases hst : st = "down"
        · exfalso
          rcases cleanupVM with _ | b
          · simp [stepCreateVMCleanup, hg, hst, cleanupDeletePhase] at h
          · rcases b <;>
              simp [stepCreateVMCleanup, hg, hst, cleanupDeletePhase] at h
        · exact ⟨st, rfl, hst⟩
  · intro h
    rcases hcv : cleanupVM with _ | b
    · exact absurd h (stepCreateVMCleanup_no_remove _ _ _
        (by simp [hcv, cleanupDeletePhase]))
    · rcases b
      · exact absurd h (stepCreateVMCleanup_no_remove _ _ _
          (by simp [hcv, cleanupDeletePhase]))
      · rfl

/-- Witness for `stepCreateVMCleanup_c5`: a VM observed `up`, stop and
wait succeeding, cleanup enabled: the cleanup stops, waits, and
deletes. -/
theorem stepCreateVMCleanup_c5_witness :
    stepCreateVMCleanup (some "vm1") (some true)
        ⟨.ok "up", none, none, none⟩
      = [.getVM, .stopVM, .waitStop, .removeVM] :=
  (stepCreateVMCleanup_c5 (some "vm1") (some true)
      ⟨.ok "up", none, none, none⟩ "vm1").2.2.1
    "up" rfl (by decide) rfl rfl

/-- `multistep.StepAction`: continue to the next step or halt the
pipeline. -/
inductive StepResult
  | cont
  | halt
deriving DecidableEq

/-- Remote-call outcomes consumed by `stepCreateTemplateFromVM.Run`: the
VM Get (status string), the template Add (an error, or the response's
optional template id), and the refresh stub stream for the
template-state poll. -/
structure CreateTplEnv where
  vmStatus : Except GoError String
  addResult : Except GoError (Option String)
  stream : List (RefreshOutcome Unit)

/-- Remote actions of `stepCreateTemplateFromVM.Run`, in order. -/
inductive TplAction
  | getVM
  /-- template Add referencing the source VM id and the cluster. -/
  | addTemplate (vmId cluster : String)
  | poll (pending target : List String)
deriving DecidableEq

/-- `stepCreateTemplateFromVM.Run`
(src/builder/olvm/step_create_template_from_vm.go, lines 16-131):
returns the step action, the remote actions performed, and the
`template_id` put into state.  `none` means the poll's refresh stub was
exhausted while it would still be looping.  The infallible SDK object
builders are not modelled. -/
def runCreateTemplateFromVM (vmId cluster : String) (env : CreateTplEnv) :
    Option (StepResult × List TplAction × Option String) :=
  if vmId = "" then some (.halt, [], none)
  else
    match env.vmStatus with
    | .error _ => some (.halt, [.getVM], none)
    | .ok st =>
      if st ≠ "down" then some (.halt, [.getVM], none)
      else
        match env.addResult with
        | .error _ => some (.halt, [.getVM, .addTemplate vmId cluster], none)
        | .ok none => some (.halt, [.getVM, .addTemplate vmId cluster], none)
        | .ok (some tid) =>
          match (waitForState ["locked", "image_locked"] ["ok"]
              env.stream).result with
          | none => none
          | some (.success _) =>
            some (.cont, [.getVM, .addTemplate vmId cluster,
              .poll ["locked", "image_locked"] ["ok"]], some tid)
          | some _ =>
            some (.halt, [.getVM, .addTemplate vmId cluster,
              .poll ["locked", "image_locked"] ["ok"]], none)

/-- C6: the template-creation step halts with a terminal error whenever
the source VM's status is not `down` — without submitting the
template-create request and without any poll (it never waits for the VM
to stop); when the VM is `down` it submits the template-create request
referencing the VM and the cluster and then polls the template's status
with pending set {locked, image_locked} and target set {ok}, succeeding
when the poll reaches `ok`. -/
theorem runCreateTemplateFromVM_c6 (vmId cluster : String)
    (env : CreateTplEnv) :
    (∀ st, vmId ≠ "" → env.vmStatus = .ok st → st ≠ "down" →
      runCreateTemplateFromVM vmId cluster env
        = some (.halt, [.getVM], none))
    ∧ (∀ tid u, vmId ≠ "" → env.vmStatus = .ok "down" →
        env.addResult = .ok (some tid) →
        (waitForState ["locked", "image_locked"] ["ok"]
            env.stream).result = some (.success u) →
        runCreateTemplateFromVM vmId cluster env
          = some (.cont, [.getVM, .addTemplate vmId cluster,
              .poll ["locked", "image_locked"] ["ok"]], some tid)) := by
  constructor
  · intro st hv hs hne
    simp [runCreateTemplateFromVM, hv, hs, hne]
  · intro tid u hv hs ha hw
    simp [runCreateTemplateFromVM, hv, hs, ha, hw]

/-- Witness for `runCreateTemplateFromVM_c6`: a stopped VM, a successful
template Add returning id `t1`, and a poll stub
[locked, image_locked, ok]. -/
theorem runCreateTemplateFromVM_c6_witness :
    runCreateTemplateFromVM "vm1" "Default"
        ⟨.ok "down", .ok (some "t1"),
          [.ok () "locked", .ok () "image_locked", .ok () "ok"]⟩
      = some (.cont, [.getVM, .addTemplate "vm1" "Default",
          .poll ["locked", "image_locked"] ["ok"]], some "t1") :=
  (runCreateTemplateFromVM_c6 "vm1" "Default"
      ⟨.ok "down", .ok (some "t1"),
        [.ok () "locked", .ok () "image_locked", .ok () "ok"]⟩).2
    "t1" () (by decide) rfl rfl (by decide)

/-- Remote-call outcomes consumed by `stepExportTemplateToOVA.Run`: the
template Get (status string), the host search by name (the names of the
hosts it returned), the side-channel HTTPS POST (transport error, or
status code and response body), and the refresh stub stream for the
template-state poll. -/
structure ExportEnv where
  templateGet : Except GoError String
  hostsList : Except GoError (List String)
  httpResult : Except GoError (Nat × String)
  stream : List (RefreshOutcome Unit)

/-- The error value the export step records in state. -/
inductive ExportFailure
  | templateAccess (e : GoError)
  | hostSearch (e : GoError)
  /-- `Host %s not found in OLVM`. -/
  | hostNotFound (name : String)
  | httpTransport (e : GoError)
  /-- `Export API call failed with status %s: %s` — carries the response
  body. -/
  | httpFailed (code : Nat) (body : String)
  | pollFailed
deriving DecidableEq

/-- Remote actions of `stepExportTemplateToOVA.Run`, in order. -/
inductive ExportAction
  | getTemplate
  | searchHosts (name : String)
  | httpPost (hostName : String)
  | poll (pending target : List String)
deriving DecidableEq

/-- `stepExportTemplateToOVA.Run` (src/unnamed/part_005, lines 33-224):
skip when no export host is configured; halt when no template id is in
state; verify the template, resolve the export host by name (no match is
terminal), POST the export request (status ≥ 400 is terminal, carrying
the response body), then poll the template's status back to `ok`.
JSON marshalling and HTTP request construction are not modelled
(infallible here); a body-read error is folded into `httpResult`. -/
def runExportStep (exportHost : String) (templateId : Option String)
    (env : ExportEnv) :
    Option (StepResult × List ExportAction × Option ExportFailure) :=
  if exportHost = "" then some (.cont, [], none)
  else
    match templateId with
    | none => some (.halt, [], none)
    | some _ =>
      match env.templateGet with
      | .error e => some (.halt, [.getTemplate], some (.templateAccess e))
      | .ok _ =>
        match env.hostsList with
        | .error e => some (.halt, [.getTemplate, .searchHosts exportHost],
            some (.hostSearch e))
        | .ok [] => some (.halt, [.getTemplate, .searchHosts exportHost],
            some (.hostNotFound exportHost))
        | .ok (hn :: _) =>
          match env.httpResult with
          | .error e => some (.halt,
              [.getTemplate, .searchHosts exportHost, .httpPost hn],
              some (.httpTransport e))
          | .ok (code, body) =>
            if 400 ≤ code then
              some (.halt,
                [.getTemplate, .searchHosts exportHost, .httpPost hn],
                some (.httpFailed code body))
            else
              match (waitForState ["locked", "image_locked"] ["ok"]
                  env.stream).result with
              | none => none
              | some (.success _) =>
                some (.cont,
                  [.getTemplate, .searchHosts exportHost, .httpPost hn,
                    .poll ["locked", "image_locked"] ["ok"]], none)
              | some _ =>
                some (.halt,
                  [.getTemplate, .searchHosts exportHost, .httpPost hn,
                    .poll ["locked", "image_locked"] ["ok"]],
                  some .pollFailed)

/-- C7: with an export host configured and a template id in state, the
step halts with a terminal error when the host search matches no host;
when the export POST returns any status code ≥ 400 it halts with a
terminal error carrying the response body (no poll); and any status code
< 400 is accepted as started: the step proceeds to poll the template's
status with pending {locked, image_locked} back to target `ok` and
continues when the poll succeeds. -/
theorem runExportStep_c7 (host tid : String) (env : ExportEnv) :
    (∀ st, host ≠ "" → env.templateGet = .ok st →
      env.hostsList = .ok [] →
      runExportStep host (some tid) env
        = some (.halt, [.getTemplate, .searchHosts host],
            some (.hostNotFound host)))
    ∧ (∀ st hn hs code body, host ≠ "" → env.templateGet = .ok st →
        env.hostsList = .ok (hn :: hs) →
        env.httpResult = .ok (code, body) → 400 ≤ code →
        runExportStep host (some tid) env
          = some (.halt, [.getTemplate, .searchHosts host, .httpPost hn],
              some (.httpFailed code body)))
    ∧ (∀ st hn hs code body u, host ≠ "" → env.templateGet = .ok st →
        env.hostsList = .ok (hn :: hs) →
        env.httpResult = .ok (code, body) → code < 400 →
        (waitForState ["locked", "image_locked"] ["ok"]
            env.stream).result = some (.success u) →
        runExportStep host (some tid) env
          = some (.cont, [.getTemplate, .searchHosts host, .httpPost hn,
              .poll ["locked", "image_locked"] ["ok"]], none)) := by
  refine ⟨?_, ?_, ?_⟩
  · intro st hh ht hl
    simp [runExportStep, hh, ht, hl]
  · intro st hn hs code body hh ht hl hr hc
    simp [runExportStep, hh, ht, hl, hr, hc]
  · intro st hn hs code body u hh ht hl hr hc hw
    simp [runExportStep, hh, ht, hl, hr, Nat.not_le.mpr hc, hw]

/-- Witness for `runExportStep_c7`: host `h1` found, the POST answering
201 with an empty body, and a poll stub [locked, ok]. -/
theorem runExportStep_c7_witness :
    runExportStep "h1" (some "t1")
        ⟨.ok "ok", .ok ["h1"], .ok (201, ""),
          [.ok () "locked", .ok () "ok"]⟩
      = some (.cont, [.getTemplate, .searchHosts "h1", .httpPost "h1",
          .poll ["locked", "image_locked"] ["ok"]], none) :=
  (runExportStep_c7 "h1" "t1"
      ⟨.ok "ok", .ok ["h1"], .ok (201, ""),
        [.ok () "locked", .ok () "ok"]⟩).2.2
    "ok" "h1" [] 201 "" () (by decide) rfl rfl rfl (by omega) (by decide)

/-- A network as `manageNetworkInterfaces` observes it. -/
structure NetworkM where
  id : String
  name : String
deriving DecidableEq

/-- A vNIC profile: id, name, and the id of the network it belongs to
(absent when the API omitted it). -/
structure VnicProfileM where
  id : String
  name : String
  networkId : Option String
deriving DecidableEq

/-- An existing NIC of the VM. -/
structure NicM where
  id : String
  name : String
deriving DecidableEq

/-- Remote-call outcomes consumed by `manageNetworkInterfaces`: the
global network list (`.Networks()` returning `!ok` is `none`), the
cluster-scoped network list, the vNIC profile list, the VM's NIC list,
and the NIC update/add calls. -/
structure NetEnv where
  globalNetworks : Except GoError (Option (List NetworkM))
  clusterNetworks : Except GoError (Option (List NetworkM))
  profiles : Except GoError (Option (List VnicProfileM))
  nics : Except GoError (Option (List NicM))
  updateNicErr : Option GoError
  addNicErr : Option GoError

/-- The configuration fields `manageNetworkInterfaces` reads. -/
structure NetCfg where
  networkName : String
  vnicProfile : String
  sourceType : String
deriving DecidableEq

/-- The error returns of `manageNetworkInterfaces`. -/
inductive NetFailure
  | listNetworks (e : GoError)
  /-- `No networks found` (the global list response had no network slice). -/
  | noNetworks
  | listClusterNetworks (e : GoError)
  /-- `Could not find network %s`. -/
  | networkNotFound (name : String)
  | listProfiles (e : GoError)
  /-- `Could not find vNIC profile %s`. -/
  | profileNotFound (name : String)
  | listNics (e : GoError)
  | updateNic (e : GoError)
  | addNic (e : GoError)
deriving DecidableEq

/-- Remote actions of `manageNetworkInterfaces`, in order. -/
inductive NetAction
  | listGlobalNetworks
  | listClusterNetworks
  | listProfiles
  | listNics
  /-- reconfigure the existing NIC `nicId` in place. -/
  | updateNic (nicId networkId profileId : String)
  /-- create a new NIC. -/
  | addNic (name networkId profileId : String)
deriving DecidableEq

/-- The first-match-by-name loop over a network slice. -/
def findByName (name : String) (ns : List NetworkM) : Option NetworkM :=
  ns.find? (fun n => n.name == name)

/-- Network resolution of `manageNetworkInterfaces`
(src/builder/olvm/step_create_vm.go, lines 607-667): global list first,
falling back to the cluster-scoped list; no match is terminal. -/
def resolveNetwork (cfg : NetCfg) (env : NetEnv) :
    Except NetFailure (NetworkM × List NetAction) :=
  match env.globalNetworks with
  | .error e => .error (.listNetworks e)
  | .ok none => .error .noNetworks
  | .ok (some gns) =>
    match findByName cfg.networkName gns with
    | some nw => .ok (nw, [.listGlobalNetworks])
    | none =>
      match env.clusterNetworks with
      | .error e => .error (.listClusterNetworks e)
      | .ok copt =>
        match
          (match copt with
           | some cns => findByName cfg.networkName cns
           | none => none) with
        | some nw => .ok (nw, [.listGlobalNetworks, .listClusterNetworks])
        | none => .error (.networkNotFound cfg.networkName)

/-- The effective vNIC profile name: `config.VnicProfile`, defaulting to
`config.NetworkName` when empty. -/
def profName (cfg : NetCfg) : String :=
  if cfg.vnicProfile = "" then cfg.networkName else cfg.vnicProfile

/-- The first-match-by-name loop over the profile slice
(src/builder/olvm/step_create_vm.go, lines 686-696): the profile's
network is NOT consulted. -/
def findProfileByName (name : String) (ps : List VnicProfileM) :
    Option VnicProfileM :=
  ps.find? (fun p => p.name == name)

/-- vNIC profile resolution of `manageNetworkInterfaces` (lines
669-702): list all profiles and take the first whose name matches; no
match is terminal. -/
def resolveVnicProfile (name : String) (env : NetEnv) :
    Except NetFailure VnicProfileM :=
  match env.profiles with
  | .error e => .error (.listProfiles e)
  | .ok popt =>
    match
      (match popt with
       | some ps => findProfileByName name ps
       | none => none) with
    | some pf => .ok pf
    | none => .error (.profileNotFound name)

/-- `manageNetworkInterfaces` (src/builder/olvm/step_create_vm.go, lines
606-798): resolve network and vNIC profile, list the VM's NICs, then on
the template path with an existing NIC reconfigure the first NIC in
place, otherwise create a new NIC named `nic1`. -/
def manageNetworkInterfaces (cfg : NetCfg) (env : NetEnv) :
    Except NetFailure (List NetAction) :=
  match resolveNetwork cfg env with
  | .error f => .error f
  | .ok (nw, acts) =>
    match resolveVnicProfile (profName cfg) env with
    | .error f => .error f
    | .ok pf =>
      match env.nics with
      | .error e => .error (.listNics e)
      | .ok nicsOpt =>
        let acts2 := acts ++ [.listProfiles, .listNics]
        match
          (if cfg.sourceType = "template" then nicsOpt.getD [] else []) with
        | n :: _ =>
          match env.updateNicErr with
          | some e => .error (.updateNic e)
          | none => .ok (acts2 ++ [.updateNic n.id nw.id pf.id])
        | [] =>
          match env.addNicErr with
          | some e => .error (.addNic e)
          | none => .ok (acts2 ++ [.addNic "nic1" nw.id pf.id])

/-- The vNIC profile resolution as claim C8 words it: prefer a profile
whose name matches AND whose network matches the resolved network,
falling back to a name-only match. -/
def claimC8VnicResolve (name networkId : String)
    (ps : List VnicProfileM) : Option VnicProfileM :=
  match ps.find? (fun p => p.name == name
      && p.networkId == some networkId) with
  | some pf => some pf
  | none => ps.find? (fun p => p.name == name)

/-- Two profiles named `pr`: the first on network `N2`, the second on the
resolved network `N1`. -/
def c8Profiles : List VnicProfileM :=
  [⟨"P1", "pr", some "N2"⟩, ⟨"P2", "pr", some "N1"⟩]

/-- Disk-sourced configuration naming network `net` and profile `pr`. -/
def c8Cfg : NetCfg := ⟨"net", "pr", "disk"⟩

/-- Environment where the global list resolves `net` to `N1` and the
profile list is `c8Profiles`. -/
def c8Env : NetEnv :=
  ⟨.ok (some [⟨"N1", "net"⟩]), .ok (some []), .ok (some c8Profiles),
    .ok (some []), none, none⟩

/-- C8 counterexample: the claim's resolution prefers the profile `P2`
(name match AND network match with the resolved network `N1`), but the
code's name-only loop picks `P1` (first name match, wrong network) and
wires the new NIC to it. -/
theorem manageNetworkInterfaces_c8_counterexample :
    manageNetworkInterfaces c8Cfg c8Env
      = .ok [.listGlobalNetworks, .listProfiles, .listNics,
          .addNic "nic1" "N1" "P1"]
    ∧ claimC8VnicResolve "pr" "N1" c8Profiles
        = some ⟨"P2", "pr", some "N1"⟩ :=
  ⟨rfl, rfl⟩

/-- The profile loop matches on names only: rewriting every profile's
network field arbitrarily commutes with the resolution. -/
lemma findProfileByName_map_network (name : String)
    (f : Option String → Option String) :
    ∀ ps : List VnicProfileM,
      findProfileByName name (ps.map fun p => ⟨p.id, p.name, f p.networkId⟩)
        = (findProfileByName name ps).map
            (fun p => ⟨p.id, p.name, f p.networkId⟩) := by
  intro ps
  induction ps with
  | nil => rfl
  | cons p rest ih =>
    by_cases h : p.name = name
    · simp [findProfileByName, h]
    · simp only [findProfileByName, List.map_cons, List.find?_cons] at *
      have hb : (p.name == name) = false := by
        simp [h]
      simp only [hb, cond_false]
      simpa [hb] using ih

/-- C8 (amended): with a network name configured, the step resolves the
network from the global list, falling back to the cluster-scoped list;
it resolves the vNIC profile by a NAME-ONLY first match on the effective
profile name (the profile's network is never consulted — there is no
name+network preference); and it reconfigures the first existing NIC in
place on the template path, while creating a new NIC `nic1` on the disk
path or when the template VM has no existing NIC. -/
theorem manageNetworkInterfaces_c8_amended (cfg : NetCfg) (env : NetEnv) :
    (∀ gns nw, env.globalNetworks = .ok (some gns) →
      findByName cfg.networkName gns = some nw →
      resolveNetwork cfg env = .ok (nw, [.listGlobalNetworks]))
    ∧ (∀ gns cns nw, env.globalNetworks = .ok (some gns) →
        findByName cfg.networkName gns = none →
        env.clusterNetworks = .ok (some cns) →
        findByName cfg.networkName cns = some nw →
        resolveNetwork cfg env
          = .ok (nw, [.listGlobalNetworks, .listClusterNetworks]))
    ∧ (∀ ps pf, env.profiles = .ok (some ps) →
        findProfileByName (profName cfg) ps = some pf →
        resolveVnicProfile (profName cfg) env = .ok pf)
    ∧ (∀ (f : Option String → Option String) (ps : List VnicProfileM),
        findProfileByName (profName cfg)
            (ps.map fun p => ⟨p.id, p.name, f p.networkId⟩)
          = (findProfileByName (profName cfg) ps).map
              (fun p => ⟨p.id, p.name, f p.networkId⟩))
    ∧ (∀ nw acts pf n rest, cfg.sourceType = "template" →
        resolveNetwork cfg env = .ok (nw, acts) →
        resolveVnicProfile (profName cfg) env = .ok pf →
        env.nics = .ok (some (n :: rest)) → env.updateNicErr = none →
        manageNetworkInterfaces cfg env
          = .ok (acts ++ [.listProfiles, .listNics,
              .updateNic n.id nw.id pf.id]))
    ∧ (∀ nw acts pf nicsOpt,
        resolveNetwork cfg env = .ok (nw, acts) →
        resolveVnicProfile (profName cfg) env = .ok pf →
        env.nics = .ok nicsOpt →
        (cfg.sourceType ≠ "template" ∨ nicsOpt.getD [] = []) →
        env.addNicErr = none →
        manageNetworkInterfaces cfg env
          = .ok (acts ++ [.listProfiles, .listNics,
              .addNic "nic1" nw.id pf.id])) := by
  refine ⟨?_, ?_, ?_, ?_, ?_, ?_⟩
  · intro gns nw hg hf
    simp [resolveNetwork, hg, hf]
  · intro gns cns nw hg hf hc hfc
    simp [resolveNetwork, hg, hf, hc, hfc]
  · intro ps pf hp hf
    simp [resolveVnicProfile, hp, hf]
  · intro f ps
    exact findProfileByName_map_network _ f ps
  · intro nw acts pf n rest hsrc hres hpf hn hu
    simp [manageNetworkInterfaces, hres, hpf, hn, hsrc, hu]
  · intro nw acts pf nicsOpt hres hpf hn hcase ha
    rcases hcase with hsrc | hempty
    · simp [manageNetworkInterfaces, hres, hpf, hn, hsrc, ha]
    · by_cases hsrc : cfg.sourceType = "template"
      · simp [manageNetworkInterfaces, hres, hpf, hn, hsrc, hempty, ha]
      · simp [manageNetworkInterfaces, hres, hpf, hn, hsrc, ha]

/-- Witness for `manageNetworkInterfaces_c8_amended`: a template-sourced
VM with one existing NIC `nicA`, network `net` resolved globally to
`N1`, profile `pr` resolved to `P1`: the NIC is reconfigured in place. -/
theorem manageNetworkInterfaces_c8_amended_witness :
    manageNetworkInterfaces ⟨"net", "pr", "template"⟩
        ⟨.ok (some [⟨"N1", "net"⟩]), .ok (some []),
          .ok (some [⟨"P1", "pr", some "N1"⟩]),
          .ok (some [⟨"nicA", "nic1"⟩]), none, none⟩
      = .ok [.listGlobalNetworks, .listProfiles, .listNics,
          .updateNic "nicA" "N1" "P1"] :=
  (manageNetworkInterfaces_c8_amended ⟨"net", "pr", "template"⟩
      ⟨.ok (some [⟨"N1", "net"⟩]), .ok (some []),
        .ok (some [⟨"P1", "pr", some "N1"⟩]),
        .ok (some [⟨"nicA", "nic1"⟩]), none, none⟩).2.2.2.2.1
    ⟨"N1", "net"⟩ [.listGlobalNetworks] ⟨"P1", "pr", some "N1"⟩
    ⟨"nicA", "nic1"⟩ [] rfl rfl rfl rfl rfl

/-- The builder artifact (src/unnamed/part_002): wraps the produced
template id. -/
structure Artifact where
  templateID : String
deriving DecidableEq

/-- `Artifact.Id()` returns the template identifier. -/
def Artifact.Id (a : Artifact) : String :=
  a.templateID

/-- The tail of `Builder.Run` (src/unnamed/part_004, lines 297-311)
after the step runner finished: `err` is what the state's `error` slot
holds, `templateId` what its `template_id` slot holds; the result is the
`(packer.Artifact, error)` pair returned. -/
def builderRunResult (err : Option GoError) (templateId : Option String) :
    Option Artifact × Option GoError :=
  match err with
  | some e => (none, some e)
  | none =>
    match templateId with
    | none => (none, none)
    | some tid => (some ⟨tid⟩, none)

/-- C9: with no recorded error and no recorded template id, `Builder.Run`
returns a nil artifact and a nil error; with no error and a template id,
it returns an artifact whose `Id` equals that template id (and a nil
error); with a recorded error it returns that error and no artifact. -/
theorem builderRunResult_c9 (e : GoError) (tid : String)
    (t : Option String) :
    (builderRunResult none none = (none, none))
    ∧ ((builderRunResult none (some tid)).2 = none
        ∧ ((builderRunResult none (some tid)).1).map Artifact.Id
            = some tid)
    ∧ (builderRunResult (some e) t = (none, some e)) :=
  ⟨rfl, ⟨rfl, rfl⟩, rfl⟩

/-- `SourceConfig` (src/unnamed/part_002) with its derived
`sourceType` field. -/
structure SourceConfigM where
  cluster : String
  sourceTemplateName : String
  sourceTemplateVersion : Int
  sourceTemplateID : String
  sourceDiskName : String
  sourceDiskID : String
  sourceType : String
deriving DecidableEq

/-- The validation errors `SourceConfig.Prepare` can append. -/
inductive PrepErr
  /-- `Cannot specify both template and disk source parameters ...`. -/
  | bothSources
  | invalidTemplateId (s : String)
  /-- `Conflict: Set either source_template_name or source_template_id`. -/
  | templateNameAndId
  | invalidDiskId (s : String)
  /-- `Conflict: Set either source_disk_name or source_disk_id`. -/
  | diskNameAndId
  /-- `Either source_template_name/id or source_disk_name/id must be
  specified`. -/
  | noSource
deriving DecidableEq

/-- `hasTemplate` of `SourceConfig.Prepare`/`deriveSourceType`. -/
def hasTemplateB (c : SourceConfigM) : Bool :=
  (c.sourceTemplateName != "") || (c.sourceTemplateID != "")

/-- `hasDisk` of `SourceConfig.Prepare`/`deriveSourceType`. -/
def hasDiskB (c : SourceConfigM) : Bool :=
  (c.sourceDiskName != "") || (c.sourceDiskID != "")

/-- `deriveSourceType` (src/unnamed/part_002, lines 130-150). -/
def deriveSourceType (c : SourceConfigM) : String :=
  if hasTemplateB c && hasDiskB c then "template"
  else if hasTemplateB c then "template"
  else if hasDiskB c then "disk"
  else "template"

/-- The `cluster = "Default"` defaulting at the top of `Prepare`. -/
def withClusterDefault (c : SourceConfigM) : SourceConfigM :=
  if c.cluster = "" then { c with cluster := "Default" } else c

/-- `c.sourceType = c.deriveSourceType()`. -/
def withDerivedType (c : SourceConfigM) : SourceConfigM :=
  { c with sourceType := deriveSourceType c }

/-- The `source_template_version` defaulting inside the template
branch. -/
def withVersionDefault (c : SourceConfigM) : SourceConfigM :=
  if c.sourceType = "template" && (c.sourceTemplateName != "")
      && decide (c.sourceTemplateVersion < 1) then
    { c with sourceTemplateVersion := 1 }
  else c

/-- The both-template-and-disk conflict check. -/
def conflictErrs (c : SourceConfigM) : List PrepErr :=
  if hasTemplateB c && hasDiskB c then [.bothSources] else []

/-- Template-branch validation: template-id syntax (via the abstract
`uuidOk` predicate standing for `uuid.Parse` succeeding) and the
name/id conflict. -/
def templateErrs (uuidOk : String → Bool) (c : SourceConfigM) :
    List PrepErr :=
  if c.sourceType = "template" then
    (if c.sourceTemplateID != "" && !uuidOk c.sourceTemplateID then
      [.invalidTemplateId c.sourceTemplateID] else [])
    ++ (if (c.sourceTemplateName != "") && (c.sourceTemplateID != "") then
      [.templateNameAndId] else [])
  else []

/-- Disk-branch validation: disk-id syntax and the name/id conflict. -/
def diskErrs (uuidOk : String → Bool) (c : SourceConfigM) : List PrepErr :=
  if c.sourceType = "disk" then
    (if c.sourceDiskID != "" && !uuidOk c.sourceDiskID then
      [.invalidDiskId c.sourceDiskID] else [])
    ++ (if (c.sourceDiskName != "") && (c.sourceDiskID != "") then
      [.diskNameAndId] else [])
  else []

/-- The no-source-at-all check. -/
def noSourceErrs (c : SourceConfigM) : List PrepErr :=
  if !hasTemplateB c && !hasDiskB c then [.noSource] else []

/-- `SourceConfig.Prepare` (src/unnamed/part_002, lines 73-128):
default the cluster, derive the source type, then accumulate the
validation errors in source order; returns the error list and the
updated config. -/
def sourceConfigPrepare (uuidOk : String → Bool) (c : SourceConfigM) :
    List PrepErr × SourceConfigM :=
  let c2 := withVersionDefault (withDerivedType (withClusterDefault c))
  (conflictErrs c2 ++ templateErrs uuidOk c2 ++ diskErrs uuidOk c2
    ++ noSourceErrs c2, c2)

/-- `GetSourceType`. -/
def getSourceType (c : SourceConfigM) : String :=
  c.sourceType

/-- Defaulting cluster and version and deriving the type leave the four
source-parameter fields unchanged. -/
lemma prepare_hasTemplate (uuidOk : String → Bool) (c : SourceConfigM) :
    hasTemplateB (sourceConfigPrepare uuidOk c).2 = hasTemplateB c := by
  obtain ⟨cl, tn, tv, tid, dn, did, st⟩ := c
  simp only [sourceConfigPrepare, withClusterDefault, withDerivedType,
    withVersionDefault, hasTemplateB]
  split_ifs <;> rfl

/-- Same for the disk fields. -/
lemma prepare_hasDisk (uuidOk : String → Bool) (c : SourceConfigM) :
    hasDiskB (sourceConfigPrepare uuidOk c).2 = hasDiskB c := by
  obtain ⟨cl, tn, tv, tid, dn, did, st⟩ := c
  simp only [sourceConfigPrepare, withClusterDefault, withDerivedType,
    withVersionDefault, hasDiskB]
  split_ifs <;> rfl

/-- The prepared config's source type is `deriveSourceType` of the
input. -/
lemma prepare_type (uuidOk : String → Bool) (c : SourceConfigM) :
    (sourceConfigPrepare uuidOk c).2.sourceType = deriveSourceType c := by
  obtain ⟨cl, tn, tv, tid, dn, did, st⟩ := c
  simp only [sourceConfigPrepare, withClusterDefault, withDerivedType,
    withVersionDefault, deriveSourceType, hasTemplateB, hasDiskB]
  split_ifs <;> rfl

/-- C10: `Prepare` reports a validation error whenever both a template
parameter and a disk parameter are set, and whenever neither is set;
consequently, on every configuration `Prepare` accepts (no errors), the
derived source type is `disk` iff a disk parameter is set and `template`
iff a template parameter is set — every accepted configuration has
exactly one well-defined source kind. -/
theorem sourceConfigPrepare_c10 (uuidOk : String → Bool)
    (c : SourceConfigM) :
    (hasTemplateB c = true → hasDiskB c = true →
      (sourceConfigPrepare uuidOk c).1 ≠ [])
    ∧ (hasTemplateB c = false → hasDiskB c = false →
      (sourceConfigPrepare uuidOk c).1 ≠ [])
    ∧ ((sourceConfigPrepare uuidOk c).1 = [] →
        ((getSourceType (sourceConfigPrepare uuidOk c).2 = "disk"
            ↔ hasDiskB c = true)
          ∧ (getSourceType (sourceConfigPrepare uuidOk c).2 = "template"
            ↔ hasTemplateB c = true))) := by
  have hfst : (sourceConfigPrepare uuidOk c).1
      = conflictErrs (sourceConfigPrepare uuidOk c).2
        ++ templateErrs uuidOk (sourceConfigPrepare uuidOk c).2
        ++ diskErrs uuidOk (sourceConfigPrepare uuidOk c).2
        ++ noSourceErrs (sourceConfigPrepare uuidOk c).2 := rfl
  refine ⟨?_, ?_, ?_⟩
  · intro hT hD
    rw [hfst]
    have hc : conflictErrs (sourceConfigPrepare uuidOk c).2
        = [.bothSources] := by
      rw [conflictErrs, prepare_hasTemplate, prepare_hasDisk, hT, hD]
      rfl
    rw [hc]
    simp
  · intro hT hD
    rw [hfst]
    have hn : noSourceErrs (sourceConfigPrepare uuidOk c).2
        = [.noSource] := by
      rw [noSourceErrs, prepare_hasTemplate, prepare_hasDisk, hT, hD]
      rfl
    rw [hn]
    simp
  · intro h
    rw [hfst] at h
    simp only [List.append_eq_nil] at h
    have hconf := h.1.1.1
    have hnos := h.2
    rw [conflictErrs, prepare_hasTemplate, prepare_hasDisk] at hconf
    rw [noSourceErrs, prepare_hasTemplate, prepare_hasDisk] at hnos
    rw [getSourceType, prepare_type, deriveSourceType]
    rcases hT : hasTemplateB c <;> rcases hD : hasDiskB c
    · rw [hT, hD] at hnos
      simp at hnos
    · simp only [hT, hD]
      simp
    · simp only [hT, hD]
      simp
    · rw [hT, hD] at hconf
      simp at hconf

/-- Witness for `sourceConfigPrepare_c10` at a disk-only configuration:
it is accepted and derives source type `disk`. -/
theorem sourceConfigPrepare_c10_witness :
    getSourceType (sourceConfigPrepare (fun _ => true)
        ⟨"", "", 0, "", "ubuntu-disk", "", ""⟩).2 = "disk" :=
  ((sourceConfigPrepare_c10 (fun _ => true)
      ⟨"", "", 0, "", "ubuntu-disk", "", ""⟩).2.2 rfl).1.mpr rfl
